import Mathlib

/-!
# poc-sumsub: signed provider requests, webhook verification, applicant flow

A shallow embedding of `main.go`, `requests.go`, `config.go` and `model.go`.

* Go `string` and `[]byte` are both byte sequences (`List UInt8`); a `nil` slice is `none`
  where the source tests for it.
* Calls into the Go standard library (`crypto/hmac`, `encoding/json`, `net/http`,
  `mime/multipart`, `fmt` verbs on composite values) are fields of `Std`; the general
  theorems are proved for every `Std`, and `testStd`, with SHA-256 and HMAC computed, is the
  one used at concrete inputs.
* What the outside world answers to one provider call (clock, network, random boundary) is an
  `Env`.
* A function that has effects returns its Go result together with the list of `Event`s it
  caused, in order.  Entering `createApplicant`, `addDocumentFromReader` and
  `processWebhookPayload` is recorded as an event, so that "is (never) invoked" can be stated.
-/

set_option autoImplicit false

namespace Sumsub

/-! ## Strings and bytes -/

abbrev Bytes := List UInt8

abbrev GoString := List UInt8

/-- A Go string literal. All literals of the source are ASCII, one byte per character. -/
def str (s : String) : GoString := s.data.map (fun c => UInt8.ofNat c.toNat)

/-- The verb `%d` of `fmt`: decimal digits, with a leading minus sign below zero. -/
def fmtInt (n : Int) : GoString := str (toString n)

/-- Outcome of a fallible Go call: the `error` message, or the value. -/
abbrev Result (α : Type) := Except GoString α

deriving instance DecidableEq for Except

/-- The message of `errors.Wrap(err, msg)`, which is `msg: err`. -/
def wrap (err msg : GoString) : GoString := msg ++ str ": " ++ err

/-- Outcome of draining an `io.Reader` to its end. -/
abbrev Reader := Result Bytes

/-! ## `encoding/hex` -/

def hextable : List UInt8 := str "0123456789abcdef"

/-- The function `hex.EncodeToString`: per byte `hextable[v>>4]`, `hextable[v&0x0f]`. -/
def hexEncodeToString : Bytes → GoString
  | [] => []
  | v :: rest =>
    hextable.getD (v.toNat / 16) 0 :: hextable.getD (v.toNat % 16) 0 :: hexEncodeToString rest

/-! ## model.go -/

structure IdDoc where
  IdDocType : GoString := []
  Country : GoString := []
  FirstName : GoString := []
  FirstNameEn : GoString := []
  MiddleName : GoString := []
  MiddleNameEn : GoString := []
  LastName : GoString := []
  LastNameEn : GoString := []
  DateOfBirth : GoString := []
deriving DecidableEq, Repr

structure IdDocMetadata where
  IdDocType : GoString := []
  Country : GoString := []
deriving DecidableEq, Repr

structure Info where
  FirstName : GoString := []
  FirstNameEn : GoString := []
  MiddleName : GoString := []
  MiddleNameEn : GoString := []
  LastName : GoString := []
  LastNameEn : GoString := []
  Dob : GoString := []
  Gender : GoString := []
  Country : GoString := []
  Phone : GoString := []
  IdDocs : List IdDoc := []
deriving DecidableEq, Repr

structure ReviewResult where
  ReviewAnswer : GoString := []
deriving DecidableEq, Repr

structure Review where
  ElapsedSincePendingMs : Int := 0
  ElapsedSinceQueuedMs : Int := 0
  Reprocessing : Bool := false
  CreateDate : GoString := []
  ReviewDate : GoString := []
  StartDate : GoString := []
  ReviewResult : Sumsub.ReviewResult := {}
  ReviewStatus : GoString := []
  NotificationFailureCnt : Int := 0
  Priority : Int := 0
deriving DecidableEq, Repr

/-- The struct `Applicant`; its field `Type` is `Type_` here. `{}` is the Go zero value. -/
structure Applicant where
  ID : GoString := []
  CreatedAt : GoString := []
  Key : GoString := []
  ClientID : GoString := []
  InspectionID : GoString := []
  ExternalUserID : GoString := []
  Info : Sumsub.Info := {}
  FixedInfo : Sumsub.Info := {}
  Review : Sumsub.Review := {}
  Lang : GoString := []
  Type_ : GoString := []
deriving DecidableEq, Repr

/-! ## config.go -/

structure SumsubConfig where
  AppToken : GoString
  SecretKey : GoString
  LevelName : GoString
  WebhookEndpoint : GoString
  WebhookSecret : GoString
deriving DecidableEq, Repr

/-! ## net/http values -/

/-- The type `http.Header`, a map from canonical key to values. -/
abbrev Header := List (GoString × List GoString)

/-- The method `Header.Get`: the first value under `key`, or the empty string. The keys the
source passes are already in canonical form. -/
def Header.Get (h : Header) (key : GoString) : GoString :=
  match h.lookup key with
  | some (v :: _) => v
  | _ => []

/-- The method `Header.Set`: `key` now has the single value `value`. -/
def Header.Set (h : Header) (key value : GoString) : Header :=
  (key, [value]) :: h.filter (fun e => e.1 != key)

/-- The outbound `*http.Request` as handed to `client.Do`; `URL` is its `URL.String()`. -/
structure HttpRequest where
  Method : GoString
  URL : GoString
  Header : Header
  Body : Bytes
deriving DecidableEq, Repr

/-- The provider's `*http.Response`: status code and the outcome of reading its body. -/
structure HttpResponse where
  StatusCode : Int
  Body : Reader

/-- What the world answers during one provider call. -/
structure Env where
  /-- The value of `time.Now().Unix()`. -/
  now : Int
  /-- The boundary that `multipart.NewWriter` draws at random. -/
  boundary : GoString
  /-- The outcome of `client.Do(req)`. -/
  Do : HttpRequest → Result HttpResponse

/-- A decoded JSON value as `encoding/json` stores it in an `interface{}`. -/
inductive JsonValue where
  | null
  | bool (b : Bool)
  | number (text : GoString)
  | string (s : GoString)
  | array (items : List JsonValue)
  | object (fields : List (GoString × JsonValue))

/-- A `map[string]interface{}`, by its entries; the `nil` map reads like the empty one. -/
abbrev JsonMap := List (GoString × JsonValue)

/-- The Go standard library, as far as the source calls it. -/
structure Std where
  /-- The MAC of `hmac.New(sha256.New, key)`, `Write(message)`, `Sum(nil)`: key, message. -/
  hmacSHA256 : Bytes → Bytes → Bytes
  /-- Decoding by `json.Unmarshal` into a `map[string]interface{}`. -/
  unmarshalMap : Bytes → Result JsonMap
  /-- Decoding by `json.Unmarshal` into an `Applicant`. -/
  unmarshalApplicant : Bytes → Result Applicant
  /-- Decoding by `json.Unmarshal` into an `IdDoc`. -/
  unmarshalIdDoc : Bytes → Result IdDoc
  /-- Encoding by `json.Marshal` of an `Applicant`. -/
  marshalApplicant : Applicant → Result Bytes
  /-- Encoding by `json.Marshal` of an `IdDocMetadata`. -/
  marshalIdDocMetadata : IdDocMetadata → Result Bytes
  /-- The request `http.NewRequest(method, url, _)` builds, by its `Method` and its
  `URL.String()`, or the error. -/
  newRequest : GoString → GoString → Result (GoString × GoString)
  /-- The bytes a `multipart.Writer` with the given boundary holds after the file part
  `content` (file name `document`), the field `metadata`, and `Close`. -/
  multipartBody : GoString → Bytes → Bytes → Bytes
  /-- The verb `%+v` on a `map[string]interface{}`. -/
  fmtMap : JsonMap → GoString
  /-- The verb `%+v` on a `*IdDoc`. -/
  fmtIdDoc : IdDoc → GoString

/-- The effects of the program, and the entries into the three functions the claims name. -/
inductive Event where
  /-- A line written by `log.Printf` or `log.Println`. -/
  | log (line : GoString)
  /-- A call `pp.Println(label, value)`. -/
  | pp (label value : GoString)
  /-- A call `ioutil.WriteFile(name, data, 0644)`. -/
  | writeFile (name : GoString) (data : Bytes)
  /-- A call `client.Do(req)`: the request goes to the provider. -/
  | send (req : HttpRequest)
  | createApplicant (applicant : Applicant)
  | addDocumentFromReader (applicantID idDocType country : GoString)
  | processWebhookPayload (bodyBytes : Bytes)
deriving DecidableEq, Repr

/-! ## main.go -/

def SumsubBaseURL : GoString := str "https://api.sumsub.com"

def ContentTypeJSON : GoString := str "application/json"

/-- The function `signRequest`; `body` is `none` for a `nil` slice. -/
def signRequest (std : Std) (timestamp secret method path : GoString) (body : Option Bytes) :
    GoString :=
  let data := timestamp ++ method ++ path
  let data := match body with
    | some b => data ++ b
    | none => data
  hexEncodeToString (std.hmacSHA256 secret data)

/-- The function `makeSumsubRequest`. The request is the one `http.NewRequest` built, with its
own `Method` and `URL`; the signature is over the `method` and `path` arguments. -/
def makeSumsubRequest (std : Std) (env : Env) (config : SumsubConfig)
    (method path contentType : GoString) (body : Option Bytes) : Result Bytes × List Event :=
  let url := SumsubBaseURL ++ path
  match std.newRequest method url with
  | .error err =>
    (.error (wrap err (str "failed to create HTTP request for " ++ method ++ str " " ++ url)), [])
  | .ok built =>
    let ts := fmtInt env.now
    let signature := signRequest std ts config.SecretKey method path body
    let header : Header := []
    let header := header.Set (str "X-App-Token") config.AppToken
    let header := header.Set (str "X-App-Access-Sig") signature
    let header := header.Set (str "X-App-Access-Ts") ts
    let header := header.Set (str "Accept") ContentTypeJSON
    let header := header.Set (str "Content-Type") contentType
    let req : HttpRequest :=
      { Method := built.1, URL := built.2, Header := header, Body := body.getD [] }
    match env.Do req with
    | .error err =>
      (.error (wrap err (str "HTTP request failed for " ++ method ++ str " " ++ url)),
        [.send req])
    | .ok resp =>
      match resp.Body with
      | .error err => (.error (wrap err (str "failed to read response body")), [.send req])
      | .ok respBody =>
        if resp.StatusCode ≥ 400 then
          (.error (str "Sumsub API error: Status " ++ fmtInt resp.StatusCode
            ++ str ", Body: " ++ respBody), [.send req])
        else
          (.ok respBody, [.send req])

/-- The function `createApplicant`. -/
def createApplicant (std : Std) (env : Env) (config : SumsubConfig) (applicant : Applicant) :
    Result Applicant × List Event :=
  let entry := Event.createApplicant applicant
  match std.marshalApplicant applicant with
  | .error err => (.error (wrap err (str "failed to marshal create applicant request")), [entry])
  | .ok body =>
    let path := str "/resources/applicants?levelName=" ++ config.LevelName
    match makeSumsubRequest std env config (str "POST") path ContentTypeJSON (some body) with
    | (.error err, evs) =>
      (.error (wrap err (str "failed to make create applicant request")), entry :: evs)
    | (.ok respBody, evs) =>
      let evs := entry :: evs ++
        [.pp (str "Create Applicant Response:") respBody,
         .writeFile (str "createApplicant.json") respBody]
      match std.unmarshalApplicant respBody with
      | .error err =>
        (.error (wrap err (str "failed to unmarshal create applicant response")), evs)
      | .ok createdApplicant => (.ok createdApplicant, evs)

/-- The function `addDocumentFromReader`; `file` is what draining the `io.Reader` gives.
The multipart writer writes into a `bytes.Buffer`, whose `Write` returns no error, so
`CreateFormFile`, `CreateFormField` and the copy of the metadata do not fail; the copy of the
file fails when reading the file does. The boundary is drawn from hexadecimal digits, so
`FormDataContentType` does not quote it. -/
def addDocumentFromReader (std : Std) (env : Env) (config : SumsubConfig)
    (applicantID idDocType country : GoString) (file : Reader) : Result IdDoc × List Event :=
  let entry := Event.addDocumentFromReader applicantID idDocType country
  let metadata : IdDocMetadata := { IdDocType := idDocType, Country := country }
  match std.marshalIdDocMetadata metadata with
  | .error err => (.error (wrap err (str "failed to marshal document metadata")), [entry])
  | .ok metaJSON =>
    match file with
    | .error err => (.error (wrap err (str "failed to copy file content")), [entry])
    | .ok content =>
      let b := std.multipartBody env.boundary content metaJSON
      let path := str "/resources/applicants/" ++ applicantID ++ str "/info/idDoc"
      let contentType := str "multipart/form-data; boundary=" ++ env.boundary
      match makeSumsubRequest std env config (str "POST") path contentType (some b) with
      | (.error err, evs) =>
        (.error (wrap err (str "failed to make add document request")), entry :: evs)
      | (.ok respBody, evs) =>
        match std.unmarshalIdDoc respBody with
        | .error err =>
          (.error (wrap err (str "failed to unmarshal add document response")), entry :: evs)
        | .ok docResponse => (.ok docResponse, entry :: evs)

/-! ## requests.go -/

/-- What a handler writes to its `http.ResponseWriter`: status code and body. -/
structure Reply where
  status : Int
  body : GoString
deriving DecidableEq, Repr

/-- The reply of `http.Error(w, error, code)`: the code, and the message with a newline. -/
def httpError (error : GoString) (code : Int) : Reply :=
  { status := code, body := error ++ str "\n" }

/-- One part of an uploaded form: what `Open` returns, a reader or an error. -/
structure FileHeader where
  Open : Result Reader

/-- The request after a successful `ParseMultipartForm`: `r.Form` and `r.MultipartForm.File`. -/
structure ParsedForm where
  Form : List (GoString × List GoString)
  File : List (GoString × List FileHeader)

/-- The method `r.FormValue(key)` on a parsed form: the first value, or the empty string. -/
def ParsedForm.FormValue (f : ParsedForm) (key : GoString) : GoString :=
  match f.Form.lookup key with
  | some (v :: _) => v
  | _ => []

/-- The method `r.FormFile(key)` on a parsed form: the first file under `key`, opened. -/
def ParsedForm.FormFile (f : ParsedForm) (key : GoString) : Result Reader :=
  match f.File.lookup key with
  | some (fh :: _) => fh.Open
  | _ => .error (str "http: no such file")

/-- An inbound `*http.Request`, by what the handlers ask of it. -/
structure Request where
  Method : GoString
  Header : Header
  /-- The outcome of `ioutil.ReadAll(r.Body)`. -/
  Body : Reader
  /-- The outcome of `r.ParseMultipartForm(10 * 1024 * 1024)`. -/
  ParseMultipartForm : Result ParsedForm

/-- The handler returned by `handleProcessEKYC(config)`. `envCreate` and `envAttach` are the
world at the first and at the second provider call. The deferred `file.Close()` is not
recorded. -/
def handleProcessEKYC (std : Std) (config : SumsubConfig) (envCreate envAttach : Env)
    (r : Request) : Reply × List Event :=
  if r.Method ≠ str "POST" then
    (httpError (str "Method not allowed") 405, [])
  else
    match r.ParseMultipartForm with
    | .error err =>
      (httpError (str "Error parsing form") 400,
        [.log (str "Error parsing multipart form: " ++ err)])
    | .ok form =>
      let externalUserID := form.FormValue (str "externalUserId")
      let idDocType := form.FormValue (str "idDocType")
      let country := form.FormValue (str "country")
      if externalUserID = [] ∨ idDocType = [] ∨ country = [] then
        (httpError (str "Missing required parameters") 400, [])
      else
        match form.FormFile (str "content") with
        | .error err =>
          (httpError (str "Error retrieving document file") 400,
            [.log (str "Error retrieving file: " ++ err)])
        | .ok file =>
          let applicant : Applicant :=
            { ExternalUserID := externalUserID, FixedInfo := { Country := str "VNM" } }
          match createApplicant std envCreate config applicant with
          | (.error err, evs) =>
            (httpError (str "Failed to create applicant") 500,
              evs ++ [.log (str "Failed to create applicant: " ++ err)])
          | (.ok createdApplicant, evs) =>
            let evs := evs ++ [.log (str "Applicant created with ID: " ++ createdApplicant.ID
              ++ str " for user " ++ externalUserID)]
            match addDocumentFromReader std envAttach config createdApplicant.ID idDocType
                country file with
            | (.error err, evs2) =>
              (httpError (str "Failed to add document") 500,
                evs ++ evs2 ++ [.log (str "Failed to add document: " ++ err)])
            | (.ok idDoc, evs2) =>
              ({ status := 200,
                 body := str "EKYC process initiated for user " ++ externalUserID
                   ++ str ". Check /verify for final status." },
                evs ++ evs2 ++ [.log (str "Document added for applicant "
                  ++ createdApplicant.ID ++ str ": " ++ std.fmtIdDoc idDoc)])

/-- The function `verifyPayloadDigest`: the MAC is computed and dropped (the line that encodes
it is commented out), and the received digest is compared with itself. -/
def verifyPayloadDigest (std : Std) (payload : Bytes) (receivedDigest secret : GoString) :
    Bool :=
  let _hash := std.hmacSHA256 secret payload
  receivedDigest == receivedDigest

/-- The function `processWebhookPayload`. -/
def processWebhookPayload (std : Std) (bodyBytes : Bytes) : Reply × List Event :=
  let entry := Event.processWebhookPayload bodyBytes
  match std.unmarshalMap bodyBytes with
  | .error err =>
    (httpError (str "Invalid webhook payload") 400,
      [entry, .log (str "Error unmarshalling webhook payload: " ++ err)])
  | .ok webhookPayload =>
    let evs := [entry, .log (str "Received Sumsub webhook payload: " ++ std.fmtMap webhookPayload)]
    match webhookPayload.lookup (str "applicantId") with
    | some (.string applicantID) =>
      match webhookPayload.lookup (str "reviewResult") with
      | some (.object reviewResult) =>
        match reviewResult.lookup (str "reviewAnswer") with
        | some (.string reviewAnswer) =>
          ({ status := 200, body := [] },
            evs ++ [.log (str "Applicant " ++ applicantID ++ str " review status: "
              ++ reviewAnswer)])
        | _ => ({ status := 200, body := [] }, evs)
      | _ => ({ status := 200, body := [] }, evs)
    | _ =>
      ({ status := 200, body := [] }, evs ++ [.log (str "Webhook payload missing applicantId")])

/-- The handler returned by `handleSumsubWebhook(config)`. -/
def handleSumsubWebhook (std : Std) (config : SumsubConfig) (r : Request) :
    Reply × List Event :=
  if r.Method ≠ str "POST" then
    (httpError (str "Method not allowed") 405, [])
  else
    match r.Body with
    | .error err =>
      (httpError (str "Error reading webhook body") 400,
        [.log (str "Error reading webhook body: " ++ err)])
    | .ok bodyBytes =>
      let payloadDigest := r.Header.Get (str "X-Payload-Digest")
      let payloadDigestAlg := r.Header.Get (str "X-Payload-Digest-Alg")
      let unauthorized : List Event → Reply × List Event := fun evs =>
        (httpError (str "Unauthorized") 401,
          evs ++ [.log (str "Webhook verification failed: No valid signature or digest found.")])
      if payloadDigest ≠ [] ∧ payloadDigestAlg = str "HMAC_SHA256_HEX" ∧ config.SecretKey ≠ [] then
        if verifyPayloadDigest std bodyBytes payloadDigest config.SecretKey then
          let (reply, evs) := processWebhookPayload std bodyBytes
          (reply, .log (str "Webhook payload digest verified") :: evs)
        else
          unauthorized [.log (str "Webhook payload digest verification failed")]
      else
        unauthorized []

/-! ## The library at concrete inputs

`testStd` is the `Std` at which theorems are instantiated. Its HMAC is SHA-256 (FIPS 180-4)
under RFC 2104; its JSON encoder, its `%+v` and its `http.NewRequest` follow `encoding/json`,
`fmt` and `net/http`; its JSON decoders are tables of the bodies used below. -/

namespace SHA256
def K : List Nat := [
  0x428a2f98, 0x71374491, 0xb5c0fbcf, 0xe9b5dba5, 0x3956c25b, 0x59f111f1, 0x923f82a4, 0xab1c5ed5,
  0xd807aa98, 0x12835b01, 0x243185be, 0x550c7dc3, 0x72be5d74, 0x80deb1fe, 0x9bdc06a7, 0xc19bf174,
  0xe49b69c1, 0xefbe4786, 0x0fc19dc6, 0x240ca1cc, 0x2de92c6f, 0x4a7484aa, 0x5cb0a9dc, 0x76f988da,
  0x983e5152, 0xa831c66d, 0xb00327c8, 0xbf597fc7, 0xc6e00bf3, 0xd5a79147, 0x06ca6351, 0x14292967,
  0x27b70a85, 0x2e1b2138, 0x4d2c6dfc, 0x53380d13, 0x650a7354, 0x766a0abb, 0x81c2c92e, 0x92722c85,
  0xa2bfe8a1, 0xa81a664b, 0xc24b8b70, 0xc76c51a3, 0xd192e819, 0xd6990624, 0xf40e3585, 0x106aa070,
  0x19a4c116, 0x1e376c08, 0x2748774c, 0x34b0bcb5, 0x391c0cb3, 0x4ed8aa4a, 0x5b9cca4f, 0x682e6ff3,
  0x748f82ee, 0x78a5636f, 0x84c87814, 0x8cc70208, 0x90befffa, 0xa4506ceb, 0xbef9a3f7, 0xc67178f2]

def rotr (x n : Nat) : Nat := ((x >>> n) ||| (x <<< (32 - n))) % 2 ^ 32
def add32 (a b : Nat) : Nat := (a + b) % 2 ^ 32
def not32 (a : Nat) : Nat := a ^^^ 0xffffffff

/-- Big-endian bytes of `n`, `k` of them. -/
def beBytes : Nat → Nat → List UInt8
  | 0, _ => []
  | k + 1, n => UInt8.ofNat (n / 256 ^ k % 256) :: beBytes k n

def pad (msg : Bytes) : Bytes :=
  let l := msg.length
  msg ++ [0x80] ++ List.replicate ((119 - l % 64) % 64) 0 ++ beBytes 8 (8 * l)

def word (b0 b1 b2 b3 : UInt8) : Nat :=
  b0.toNat * 2 ^ 24 + b1.toNat * 2 ^ 16 + b2.toNat * 2 ^ 8 + b3.toNat

/-- The big-endian 32-bit words of a byte string. -/
def words : Bytes → List Nat
  | b0 :: b1 :: b2 :: b3 :: rest => word b0 b1 b2 b3 :: words rest
  | _ => []

/-- Extends the schedule, kept newest first, by `n` words. -/
def extend : Nat → List Nat → List Nat
  | 0, w => w
  | n + 1, w =>
    let w2 := w.getD 1 0
    let w7 := w.getD 6 0
    let w15 := w.getD 14 0
    let w16 := w.getD 15 0
    let s0 := rotr w15 7 ^^^ rotr w15 18 ^^^ (w15 >>> 3)
    let s1 := rotr w2 17 ^^^ rotr w2 19 ^^^ (w2 >>> 10)
    extend n (add32 (add32 (add32 w16 s0) w7) s1 :: w)

structure State where
  a : Nat
  b : Nat
  c : Nat
  d : Nat
  e : Nat
  f : Nat
  g : Nat
  h : Nat

def round (s : State) (kw : Nat × Nat) : State :=
  let S1 := rotr s.e 6 ^^^ rotr s.e 11 ^^^ rotr s.e 25
  let ch := (s.e &&& s.f) ^^^ (not32 s.e &&& s.g)
  let t1 := add32 (add32 (add32 (add32 s.h S1) ch) kw.1) kw.2
  let S0 := rotr s.a 2 ^^^ rotr s.a 13 ^^^ rotr s.a 22
  let maj := (s.a &&& s.b) ^^^ (s.a &&& s.c) ^^^ (s.b &&& s.c)
  let t2 := add32 S0 maj
  { a := add32 t1 t2, b := s.a, c := s.b, d := s.c, e := add32 s.d t1, f := s.e, g := s.f, h := s.g }

def compress (s : State) (block : List Nat) : State :=
  let w := (extend 48 block.reverse).reverse
  let t := (K.zip w).foldl round s
  { a := add32 s.a t.a, b := add32 s.b t.b, c := add32 s.c t.c, d := add32 s.d t.d,
    e := add32 s.e t.e, f := add32 s.f t.f, g := add32 s.g t.g, h := add32 s.h t.h }

/-- Folds the blocks of sixteen words. The fuel is the number of blocks. -/
def blocks : Nat → State → List Nat → State
  | 0, s, _ => s
  | n + 1, s, ws => blocks n (compress s (ws.take 16)) (ws.drop 16)

def sum (msg : Bytes) : Bytes :=
  let ws := words (pad msg)
  let s := blocks (ws.length / 16)
    { a := 0x6a09e667, b := 0xbb67ae85, c := 0x3c6ef372, d := 0xa54ff53a,
      e := 0x510e527f, f := 0x9b05688c, g := 0x1f83d9ab, h := 0x5be0cd19 } ws
  [s.a, s.b, s.c, s.d, s.e, s.f, s.g, s.h].flatMap (beBytes 4)
end SHA256

/-- HMAC (RFC 2104) with SHA-256: what `hmac.New(sha256.New, key)` computes. -/
def hmacSHA256 (key message : Bytes) : Bytes :=
  let key := if key.length > 64 then SHA256.sum key else key
  let key := key ++ List.replicate (64 - key.length) 0
  let ipad := key.map (fun b => b ^^^ 0x36)
  let opad := key.map (fun b => b ^^^ 0x5c)
  SHA256.sum (opad ++ SHA256.sum (ipad ++ message))


/-! JSON strings -/
def upperHexTable : List UInt8 := str "0123456789ABCDEF"
def lowerHexTable : List UInt8 := str "0123456789abcdef"

/-- Whether `c` continues a UTF-8 sequence. -/
def isCont (c : UInt8) : Bool := decide (0x80 ≤ c ∧ c ≤ 0xbf)

/-- One ASCII byte inside a JSON string, as `json.Marshal` writes it (Go 1.22 and later for
the bytes 8 and 12): quote and backslash escaped, control bytes and `<`, `>`, `&` as
`\u00XX`. -/
def jsonEscapeByte (b : UInt8) : GoString :=
  if b = 0x22 then str "\\\""
  else if b = 0x5c then str "\\\\"
  else if b = 0x08 then str "\\b"
  else if b = 0x0c then str "\\f"
  else if b = 0x0a then str "\\n"
  else if b = 0x0d then str "\\r"
  else if b = 0x09 then str "\\t"
  else if b < 0x20 ∨ b = 0x3c ∨ b = 0x3e ∨ b = 0x26 then
    str "\\u00" ++ [lowerHexTable.getD (b.toNat / 16) 0, lowerHexTable.getD (b.toNat % 16) 0]
  else [b]

/-- The length of the UTF-8 sequence that starts the string, 0 when none does. -/
def utf8Len : GoString → Nat
  | [] => 0
  | b :: rest =>
    if b < 0x80 then 1
    else
      match rest with
      | [] => 0
      | b1 :: rest1 =>
        if 0xc2 ≤ b ∧ b ≤ 0xdf ∧ isCont b1 then 2
        else
          match rest1 with
          | [] => 0
          | b2 :: rest2 =>
            if ((b = 0xe0 ∧ 0xa0 ≤ b1 ∧ b1 ≤ 0xbf)
                ∨ (0xe1 ≤ b ∧ b ≤ 0xec ∧ isCont b1)
                ∨ (b = 0xed ∧ 0x80 ≤ b1 ∧ b1 ≤ 0x9f)
                ∨ (0xee ≤ b ∧ b ≤ 0xef ∧ isCont b1)) ∧ isCont b2 then 3
            else
              match rest2 with
              | [] => 0
              | b3 :: _ =>
                if ((b = 0xf0 ∧ 0x90 ≤ b1 ∧ b1 ≤ 0xbf)
                    ∨ (0xf1 ≤ b ∧ b ≤ 0xf3 ∧ isCont b1)
                    ∨ (b = 0xf4 ∧ 0x80 ≤ b1 ∧ b1 ≤ 0x8f)) ∧ isCont b2 ∧ isCont b3 then 4
                else 0

/-- The body of a JSON string; the fuel is the number of bytes left. -/
def jsonEscapeAux : Nat → GoString → GoString
  | 0, _ => []
  | _ + 1, [] => []
  | fuel + 1, b :: rest =>
    if b < 0x80 then jsonEscapeByte b ++ jsonEscapeAux fuel rest
    else if utf8Len (b :: rest) = 0 then str "\\ufffd" ++ jsonEscapeAux fuel rest
    else if (b :: rest).take 3 = [0xe2, 0x80, 0xa8] then
      str "\\u2028" ++ jsonEscapeAux fuel (rest.drop 2)
    else if (b :: rest).take 3 = [0xe2, 0x80, 0xa9] then
      str "\\u2029" ++ jsonEscapeAux fuel (rest.drop 2)
    else (b :: rest).take (utf8Len (b :: rest))
      ++ jsonEscapeAux fuel (rest.drop (utf8Len (b :: rest) - 1))

def jsonEscape (s : GoString) : GoString := jsonEscapeAux s.length s

def jsonString (s : GoString) : GoString := str "\"" ++ jsonEscape s ++ str "\""


/-! net/url and net/http -/

def isAlnum (c : UInt8) : Bool :=
  decide ((0x30 ≤ c ∧ c ≤ 0x39) ∨ (0x41 ≤ c ∧ c ≤ 0x5a) ∨ (0x61 ≤ c ∧ c ≤ 0x7a))

def isHexDigit (c : UInt8) : Bool :=
  decide ((0x30 ≤ c ∧ c ≤ 0x39) ∨ (0x41 ≤ c ∧ c ≤ 0x46) ∨ (0x61 ≤ c ∧ c ≤ 0x66))

def unhex (c : UInt8) : Nat :=
  if c ≤ 0x39 then c.toNat - 0x30 else if c ≤ 0x46 then c.toNat - 0x41 + 10 else c.toNat - 0x61 + 10

/-- The function `shouldEscape` of `net/url` in the modes `encodePath` (`fragment` false) and
`encodeFragment` (`fragment` true). -/
def shouldEscape (fragment : Bool) (c : UInt8) : Bool :=
  if isAlnum c then false
  else if c ∈ str "-_.~" then false
  else if c ∈ str "$&+,/:;=?@" then (if fragment then false else c == 0x3f)
  else if fragment ∧ c ∈ str "!()*" then false
  else true

def validEncoded (fragment : Bool) (s : GoString) : Bool :=
  s.all (fun c => c ∈ [0x21, 0x24, 0x26, 0x27, 0x28, 0x29, 0x2a, 0x2b, 0x2c, 0x3b, 0x3d, 0x3a,
    0x40, 0x5b, 0x5d, 0x25] || !shouldEscape fragment c)

/-- The function `unescape` of `net/url` outside the query: `%XX` becomes one byte. -/
def unescape : GoString → Option GoString
  | [] => some []
  | c :: rest =>
    if c = 0x25 then
      match rest with
      | h1 :: h2 :: rest2 =>
        if isHexDigit h1 ∧ isHexDigit h2 then
          (unescape rest2).map (fun t => UInt8.ofNat (unhex h1 * 16 + unhex h2) :: t)
        else none
      | _ => none
    else (unescape rest).map (fun t => c :: t)

def escape (fragment : Bool) : GoString → GoString
  | [] => []
  | c :: rest =>
    if shouldEscape fragment c then
      0x25 :: upperHexTable.getD (c.toNat / 16) 0 :: upperHexTable.getD (c.toNat % 16) 0
        :: escape fragment rest
    else c :: escape fragment rest

/-- The string before the first `sep` and, when there is one, the string after it. -/
def cut (sep : UInt8) : GoString → GoString × Option GoString
  | [] => ([], none)
  | c :: rest =>
    if c = sep then ([], some rest)
    else ((cut sep rest).1.cons c, (cut sep rest).2)

/-- The methods `EscapedPath` and `EscapedFragment`. -/
def escaped (fragment : Bool) (raw : GoString) : Option GoString :=
  (unescape raw).map (fun plain => if validEncoded fragment raw then raw else escape fragment plain)

/-- Splits `scheme://authority` off a URL without query and fragment. -/
def cutAuthority : GoString → GoString × GoString
  | 0x3a :: 0x2f :: 0x2f :: rest =>
    ((str "://") ++ (cut 0x2f rest).1,
      match (cut 0x2f rest).2 with
      | some p => 0x2f :: p
      | none => [])
  | c :: rest => ((cutAuthority rest).1.cons c, (cutAuthority rest).2)
  | [] => ([], [])

/-- The text `u.String()` of `u, err := url.Parse(rawURL)`, for a URL of the form
`scheme://host/path?query#fragment` whose scheme and host are written as they are kept: the
path and the fragment are re-encoded, the query is kept. The error texts are shortened. -/
def urlString (rawURL : GoString) : Result GoString :=
  if rawURL.any (fun c => c < 0x20 || c == 0x7f) then
    .error (str "net/url: invalid control character in URL")
  else
    let (beforeFragment, fragment) := cut 0x23 rawURL
    let (beforeQuery, query) := cut 0x3f beforeFragment
    let (authority, path) := cutAuthority beforeQuery
    match escaped false path, escaped true (fragment.getD []) with
    | some p, some f =>
      .ok (authority ++ p
        ++ (match query with
            | some q => 0x3f :: q
            | none => [])
        ++ (if f = [] then [] else 0x23 :: f))
    | _, _ => .error (str "invalid URL escape")

/-- Whether `c` may occur in an HTTP token: letters, digits, and fifteen marks. -/
def isToken (c : UInt8) : Bool :=
  isAlnum c || c ∈ [0x21, 0x23, 0x24, 0x25, 0x26, 0x27, 0x2a, 0x2b, 0x2d, 0x2e, 0x5e, 0x5f, 0x60,
    0x7c, 0x7e]

/-- The method and URL of the request `http.NewRequest(method, url, _)` builds: an empty
method becomes `GET`, a method that is not a token is refused, the URL is parsed. -/
def newRequest (method url : GoString) : Result (GoString × GoString) :=
  let method := if method = [] then str "GET" else method
  if !method.all isToken then .error (str "net/http: invalid method")
  else
    match urlString url with
    | .error err => .error err
    | .ok u => .ok (method, u)


/-! `encoding/json`: encoding -/

/-- The members of a JSON object that are present, joined by commas, in braces. -/
def jsonObject (members : List (Option GoString)) : GoString :=
  str "\x7b" ++ List.intercalate (str ",") (members.filterMap id) ++ str "\x7d"

/-- A string member under `omitempty`. -/
def omitEmpty (name : String) (v : GoString) : Option GoString :=
  if v = [] then none else some (str "\"" ++ str name ++ str "\":" ++ jsonString v)

/-- An `int` member under `omitempty`. -/
def omitZero (name : String) (n : Int) : Option GoString :=
  if n = 0 then none else some (str "\"" ++ str name ++ str "\":" ++ fmtInt n)

/-- A member that is always written. -/
def member (name : String) (json : GoString) : Option GoString :=
  some (str "\"" ++ str name ++ str "\":" ++ json)

def marshalIdDoc (d : IdDoc) : GoString :=
  jsonObject [omitEmpty "idDocType" d.IdDocType, omitEmpty "country" d.Country,
    omitEmpty "firstName" d.FirstName, omitEmpty "firstNameEn" d.FirstNameEn,
    omitEmpty "middleName" d.MiddleName, omitEmpty "middleNameEn" d.MiddleNameEn,
    omitEmpty "lastName" d.LastName, omitEmpty "lastNameEn" d.LastNameEn,
    omitEmpty "dob" d.DateOfBirth]

def marshalInfo (i : Info) : GoString :=
  jsonObject [omitEmpty "firstName" i.FirstName, omitEmpty "firstNameEn" i.FirstNameEn,
    omitEmpty "middleName" i.MiddleName, omitEmpty "middleNameEn" i.MiddleNameEn,
    omitEmpty "lastName" i.LastName, omitEmpty "lastNameEn" i.LastNameEn,
    omitEmpty "dob" i.Dob, omitEmpty "gender" i.Gender, omitEmpty "country" i.Country,
    omitEmpty "phone" i.Phone,
    if i.IdDocs = [] then none
    else member "idDocs"
      (str "[" ++ List.intercalate (str ",") (i.IdDocs.map marshalIdDoc) ++ str "]")]

def marshalReview (r : Review) : GoString :=
  jsonObject [omitZero "elapsedSincePendingMs" r.ElapsedSincePendingMs,
    omitZero "elapsedSinceQueuedMs" r.ElapsedSinceQueuedMs,
    if r.Reprocessing then member "reprocessing" (str "true") else none,
    omitEmpty "createDate" r.CreateDate, omitEmpty "reviewDate" r.ReviewDate,
    omitEmpty "startDate" r.StartDate,
    member "reviewResult" (jsonObject [omitEmpty "reviewAnswer" r.ReviewResult.ReviewAnswer]),
    omitEmpty "reviewStatus" r.ReviewStatus,
    omitZero "notificationFailureCnt" r.NotificationFailureCnt,
    omitZero "priority" r.Priority]

/-- The bytes of `json.Marshal(applicant)`: `omitempty` drops empty strings, zero numbers,
false and empty slices, and keeps the nested structs. -/
def marshalApplicant (a : Applicant) : GoString :=
  jsonObject [omitEmpty "id" a.ID, omitEmpty "createdAt" a.CreatedAt, omitEmpty "key" a.Key,
    omitEmpty "clientId" a.ClientID, omitEmpty "inspectionId" a.InspectionID,
    omitEmpty "externalUserId" a.ExternalUserID, member "info" (marshalInfo a.Info),
    member "fixedInfo" (marshalInfo a.FixedInfo), member "review" (marshalReview a.Review),
    omitEmpty "lang" a.Lang, omitEmpty "type" a.Type_]

def marshalIdDocMetadata (m : IdDocMetadata) : GoString :=
  jsonObject [member "idDocType" (jsonString m.IdDocType), member "country" (jsonString m.Country)]

/-! The verb `%+v` -/

def bytesLt : GoString → GoString → Bool
  | [], [] => false
  | [], _ :: _ => true
  | _ :: _, [] => false
  | a :: as, b :: bs => a < b || (a == b && bytesLt as bs)

def insertByKey (e : GoString × GoString) :
    List (GoString × GoString) → List (GoString × GoString)
  | [] => [e]
  | x :: rest => if bytesLt e.1 x.1 then e :: x :: rest else x :: insertByKey e rest

def sortByKey : List (GoString × GoString) → List (GoString × GoString)
  | [] => []
  | e :: rest => insertByKey e (sortByKey rest)

mutual
/-- The verb `%+v` on a decoded JSON value: maps print their keys in sorted order. A number
is held by the text `%v` gives its `float64`. -/
def fmtValue : JsonValue → GoString
  | .null => str "<nil>"
  | .bool b => if b then str "true" else str "false"
  | .number text => text
  | .string s => s
  | .array items => str "[" ++ List.intercalate (str " ") (fmtItems items) ++ str "]"
  | .object fields =>
    str "map[" ++ List.intercalate (str " ") ((sortByKey (fmtFields fields)).map
      (fun e => e.1 ++ str ":" ++ e.2)) ++ str "]"
def fmtItems : List JsonValue → List GoString
  | [] => []
  | v :: rest => fmtValue v :: fmtItems rest
def fmtFields : List (GoString × JsonValue) → List (GoString × GoString)
  | [] => []
  | (k, v) :: rest => (k, fmtValue v) :: fmtFields rest
end

def fmtIdDoc (d : IdDoc) : GoString :=
  str "&\x7bIdDocType:" ++ d.IdDocType ++ str " Country:" ++ d.Country
    ++ str " FirstName:" ++ d.FirstName ++ str " FirstNameEn:" ++ d.FirstNameEn
    ++ str " MiddleName:" ++ d.MiddleName ++ str " MiddleNameEn:" ++ d.MiddleNameEn
    ++ str " LastName:" ++ d.LastName ++ str " LastNameEn:" ++ d.LastNameEn
    ++ str " DateOfBirth:" ++ d.DateOfBirth ++ str "\x7d"

/-! The bodies the decoders know, and `testStd` -/

def emptyObjectJSON : Bytes := str "\x7b\x7d"

def nullJSON : Bytes := str "null"

def createdA1JSON : Bytes := str "\x7b\"id\":\"A1\"\x7d"

def createdB2JSON : Bytes := str "\x7b\"id\":\"B2\"\x7d"

def greenCallbackJSON : Bytes :=
  str "\x7b\"applicantId\":\"X\",\"reviewResult\":\x7b\"reviewAnswer\":\"GREEN\"\x7d\x7d"

/-- The library at concrete inputs. The decoders answer the bodies above as `encoding/json`
does (the literal `null` leaves the target at its zero value, without error) and are not
used at any other body. -/
def testStd : Std where
  hmacSHA256 := hmacSHA256
  unmarshalMap := fun b =>
    if b = emptyObjectJSON ∨ b = nullJSON then .ok []
    else if b = greenCallbackJSON then
      .ok [(str "applicantId", .string (str "X")),
           (str "reviewResult", .object [(str "reviewAnswer", .string (str "GREEN"))])]
    else .error (str "body outside the table")
  unmarshalApplicant := fun b =>
    if b = emptyObjectJSON ∨ b = nullJSON then .ok {}
    else if b = createdA1JSON then .ok { ID := str "A1" }
    else if b = createdB2JSON then .ok { ID := str "B2" }
    else .error (str "body outside the table")
  unmarshalIdDoc := fun b =>
    if b = emptyObjectJSON ∨ b = nullJSON then .ok {} else .error (str "body outside the table")
  marshalApplicant := fun a => .ok (marshalApplicant a)
  marshalIdDocMetadata := fun m => .ok (marshalIdDocMetadata m)
  newRequest := newRequest
  multipartBody := fun boundary content metaJSON =>
    str "--" ++ boundary ++ str "\r\n"
      ++ str "Content-Disposition: form-data; name=\"content\"; filename=\"document\"\r\n"
      ++ str "Content-Type: application/octet-stream\r\n\r\n" ++ content ++ str "\r\n"
      ++ str "--" ++ boundary ++ str "\r\n"
      ++ str "Content-Disposition: form-data; name=\"metadata\"\r\n\r\n" ++ metaJSON
      ++ str "\r\n--" ++ boundary ++ str "--\r\n"
  fmtMap := fun m => fmtValue (.object m)
  fmtIdDoc := fmtIdDoc

/-! ## Concrete requests and environments -/

def testConfig : SumsubConfig :=
  { AppToken := str "app-token", SecretKey := str "secret", LevelName := str "basic-kyc-level",
    WebhookEndpoint := str "https://example.test/verify", WebhookSecret := [] }

/-- A callback with the given digest, algorithm and body. -/
def callback (digest alg : GoString) (body : Bytes) : Request :=
  { Method := str "POST"
    Header := [(str "X-Payload-Digest", [digest]), (str "X-Payload-Digest-Alg", [alg])]
    Body := .ok body
    ParseMultipartForm := .error (str "request Content-Type isn't multipart/form-data") }

/-- A provider that answers every request with the given status and body, at a fixed time. -/
def provider (status : Int) (body : Bytes) : Env :=
  { now := 1700000000
    boundary := str "5f1c0a9e"
    Do := fun _ => .ok { StatusCode := status, Body := .ok body } }

/-- A parsed form with the given values and one file under `content`. -/
def parsedForm (form : List (GoString × List GoString)) : ParsedForm :=
  { Form := form
    File := [(str "content", [{ Open := .ok (.ok (str "document bytes")) }])] }

/-- A POST submission with the given form values and one file under `content`. -/
def submission (form : List (GoString × List GoString)) : Request :=
  { Method := str "POST"
    Header := []
    Body := .ok []
    ParseMultipartForm := .ok (parsedForm form) }

def fullForm : List (GoString × List GoString) :=
  [(str "externalUserId", [str "user-1"]), (str "idDocType", [str "PASSPORT"]),
   (str "country", [str "VNM"])]

def formWithoutCountry : List (GoString × List GoString) :=
  [(str "externalUserId", [str "user-1"]), (str "idDocType", [str "PASSPORT"])]

/-- The applicant that `handleProcessEKYC` asks the provider to create. -/
def newApplicant (externalUserID : GoString) : Applicant :=
  { ExternalUserID := externalUserID, FixedInfo := { Country := str "VNM" } }

/-- The URLs of the requests sent, in order. -/
def sentURLs : List Event → List GoString
  | [] => []
  | .send req :: rest => req.URL :: sentURLs rest
  | _ :: rest => sentURLs rest

/-- The callback of scenario C: the body with its HMAC-SHA256 digest under the key `secret`,
in lowercase hexadecimal. -/
def greenCallback : Request :=
  callback (str "70c10026164d174ae9dbcea06a88256a9aac284b8fffedeff2fa7dd4cd52ba81")
    (str "HMAC_SHA256_HEX") greenCallbackJSON

/-! ## Vocabulary of the statements -/

/-- The request that `makeSumsubRequest` hands to `client.Do` once `http.NewRequest` has
returned `built`: its `req` after the five `Header.Set` calls. -/
def signedRequest (std : Std) (env : Env) (config : SumsubConfig) (built : GoString × GoString)
    (method path contentType : GoString) (body : Option Bytes) : HttpRequest :=
  { Method := built.1
    URL := built.2
    Header :=
      let header : Header := []
      let header := header.Set (str "X-App-Token") config.AppToken
      let header := header.Set (str "X-App-Access-Sig")
        (signRequest std (fmtInt env.now) config.SecretKey method path body)
      let header := header.Set (str "X-App-Access-Ts") (fmtInt env.now)
      let header := header.Set (str "Accept") ContentTypeJSON
      header.Set (str "Content-Type") contentType
    Body := body.getD [] }

/-- One lowercase hexadecimal digit: `0` to `9` for 0 to 9, `a` to `f` for 10 to 15. -/
def lowerHexDigit (d : Nat) : UInt8 :=
  if d < 10 then UInt8.ofNat (0x30 + d) else UInt8.ofNat (0x61 + (d - 10))

/-- The lowercase hexadecimal encoding, as the specification words it: every byte gives two
digits, the high four bits first. Written without the table of `encoding/hex`. -/
def lowerHex : Bytes → GoString
  | [] => []
  | v :: rest => lowerHexDigit (v.toNat / 16) :: lowerHexDigit (v.toNat % 16) :: lowerHex rest

/-- Whether a JSON text can be an object: after white space its first byte is the opening
brace. -/
def isObjectText : Bytes → Bool
  | [] => false
  | c :: rest =>
    if c = 0x20 ∨ c = 0x09 ∨ c = 0x0a ∨ c = 0x0d then isObjectText rest else c == 0x7b

/-! ## Library lemmas -/

theorem hextable_getD_mem (i : Nat) (h : i < 16) : hextable.getD i 0 ∈ hextable := by
  revert i
  decide

theorem hexEncodeToString_mem (src : Bytes) :
    ∀ c ∈ hexEncodeToString src, c ∈ hextable := by
  induction src with
  | nil => intro c hc; simp [hexEncodeToString] at hc
  | cons v rest ih =>
    intro c hc
    simp only [hexEncodeToString, List.mem_cons] at hc
    have hv : v.toNat < 256 := v.val.isLt
    rcases hc with rfl | rfl | hc
    · exact hextable_getD_mem _ (by omega)
    · exact hextable_getD_mem _ (by omega)
    · exact ih c hc

theorem hexEncodeToString_length (src : Bytes) :
    (hexEncodeToString src).length = 2 * src.length := by
  induction src with
  | nil => rfl
  | cons v rest ih => simp only [hexEncodeToString, List.length_cons, ih]; omega

theorem hextable_getD_eq (i : Nat) (h : i < 16) : hextable.getD i 0 = lowerHexDigit i := by
  revert i
  decide

theorem hexEncodeToString_eq_lowerHex (src : Bytes) : hexEncodeToString src = lowerHex src := by
  induction src with
  | nil => rfl
  | cons v rest ih =>
    have hv : v.toNat < 256 := v.val.isLt
    simp only [hexEncodeToString, lowerHex, ih,
      hextable_getD_eq (v.toNat / 16) (by omega), hextable_getD_eq (v.toNat % 16) (by omega)]

theorem verifyPayloadDigest_eq_true (std : Std) (payload : Bytes)
    (receivedDigest secret : GoString) :
    verifyPayloadDigest std payload receivedDigest secret = true := by
  simp [verifyPayloadDigest]

theorem processWebhookPayload_error (std : Std) (bodyBytes : Bytes) (err : GoString)
    (h : std.unmarshalMap bodyBytes = .error err) :
    processWebhookPayload std bodyBytes
      = (httpError (str "Invalid webhook payload") 400,
          [.processWebhookPayload bodyBytes,
           .log (str "Error unmarshalling webhook payload: " ++ err)]) := by
  simp [processWebhookPayload, h]

theorem processWebhookPayload_ok (std : Std) (bodyBytes : Bytes) (m : JsonMap)
    (h : std.unmarshalMap bodyBytes = .ok m) :
    (processWebhookPayload std bodyBytes).1 = { status := 200, body := [] } := by
  simp only [processWebhookPayload, h]
  split
  · split
    · split <;> rfl
    · rfl
  · rfl

theorem processWebhookPayload_entry (std : Std) (bodyBytes : Bytes) :
    Event.processWebhookPayload bodyBytes ∈ (processWebhookPayload std bodyBytes).2 := by
  simp only [processWebhookPayload]
  split
  · simp
  · split
    · split
      · split <;> simp
      · simp
    · simp

theorem handleSumsubWebhook_verified (std : Std) (config : SumsubConfig) (r : Request)
    (bodyBytes : Bytes) (hm : r.Method = str "POST") (hb : r.Body = .ok bodyBytes)
    (hd : r.Header.Get (str "X-Payload-Digest") ≠ [])
    (ha : r.Header.Get (str "X-Payload-Digest-Alg") = str "HMAC_SHA256_HEX")
    (hs : config.SecretKey ≠ []) :
    handleSumsubWebhook std config r
      = ((processWebhookPayload std bodyBytes).1,
          .log (str "Webhook payload digest verified")
            :: (processWebhookPayload std bodyBytes).2) := by
  simp [handleSumsubWebhook, hm, hb, hd, ha, hs, verifyPayloadDigest_eq_true]

theorem handleSumsubWebhook_unverified (std : Std) (config : SumsubConfig) (r : Request)
    (bodyBytes : Bytes) (hm : r.Method = str "POST") (hb : r.Body = .ok bodyBytes)
    (h : r.Header.Get (str "X-Payload-Digest") = []
      ∨ r.Header.Get (str "X-Payload-Digest-Alg") ≠ str "HMAC_SHA256_HEX"
      ∨ config.SecretKey = []) :
    handleSumsubWebhook std config r
      = (httpError (str "Unauthorized") 401,
          [.log (str "Webhook verification failed: No valid signature or digest found.")]) := by
  have hg : ¬ (r.Header.Get (str "X-Payload-Digest") ≠ []
      ∧ r.Header.Get (str "X-Payload-Digest-Alg") = str "HMAC_SHA256_HEX"
      ∧ config.SecretKey ≠ []) := by
    rintro ⟨h1, h2, h3⟩
    rcases h with h | h | h
    · exact h1 h
    · exact h h2
    · exact h3 h
  simp only [handleSumsubWebhook, hm, hb]
  rw [if_neg (by simp), if_neg hg]
  rfl

theorem Header_Get_Set_same (h : Header) (key value : GoString) :
    (h.Set key value).Get key = value := by
  simp [Header.Set, Header.Get, List.lookup]

theorem lookup_filter_ne (h : Header) (key other : GoString) (hne : other ≠ key) :
    (h.filter (fun e => e.1 != key)).lookup other = h.lookup other := by
  induction h with
  | nil => rfl
  | cons e rest ih =>
    obtain ⟨k, v⟩ := e
    by_cases hk : k = key
    · subst hk
      have h1 : (other == k) = false := by simpa using hne
      simp [List.filter, List.lookup, h1, ih]
    · have h2 : (k != key) = true := by simpa using hk
      simp only [List.filter, h2, List.lookup]
      cases other == k <;> simp [ih]

theorem Header_Get_Set_ne (h : Header) (key value other : GoString) (hne : other ≠ key) :
    (h.Set key value).Get other = h.Get other := by
  have h1 : (other == key) = false := by simpa using hne
  simp [Header.Set, Header.Get, List.lookup, h1, lookup_filter_ne h key other hne]

theorem signedRequest_headers (std : Std) (env : Env) (config : SumsubConfig)
    (built : GoString × GoString) (method path contentType : GoString) (body : Option Bytes) :
    (signedRequest std env config built method path contentType body).Header.Get
        (str "X-App-Access-Ts") = fmtInt env.now
      ∧ (signedRequest std env config built method path contentType body).Header.Get
        (str "X-App-Access-Sig")
        = signRequest std (fmtInt env.now) config.SecretKey method path body
      ∧ (signedRequest std env config built method path contentType body).Header.Get
        (str "X-App-Token") = config.AppToken
      ∧ (signedRequest std env config built method path contentType body).Header.Get
        (str "Accept") = ContentTypeJSON
      ∧ (signedRequest std env config built method path contentType body).Header.Get
        (str "Content-Type") = contentType := by
  refine ⟨?_, ?_, ?_, ?_, ?_⟩
  · simp only [signedRequest]
    rw [Header_Get_Set_ne _ _ _ _ (by decide), Header_Get_Set_ne _ _ _ _ (by decide),
      Header_Get_Set_same]
  · simp only [signedRequest]
    rw [Header_Get_Set_ne _ _ _ _ (by decide), Header_Get_Set_ne _ _ _ _ (by decide),
      Header_Get_Set_ne _ _ _ _ (by decide), Header_Get_Set_same]
  · simp only [signedRequest]
    rw [Header_Get_Set_ne _ _ _ _ (by decide), Header_Get_Set_ne _ _ _ _ (by decide),
      Header_Get_Set_ne _ _ _ _ (by decide), Header_Get_Set_ne _ _ _ _ (by decide),
      Header_Get_Set_same]
  · simp only [signedRequest]
    rw [Header_Get_Set_ne _ _ _ _ (by decide), Header_Get_Set_same]
  · simp only [signedRequest]
    rw [Header_Get_Set_same]

/-- What `makeSumsubRequest` returns, by the outcome of each step. -/
theorem makeSumsubRequest_eq (std : Std) (env : Env) (config : SumsubConfig)
    (method path contentType : GoString) (body : Option Bytes) :
    makeSumsubRequest std env config method path contentType body
      = match std.newRequest method (SumsubBaseURL ++ path) with
        | .error err =>
          (.error (wrap err (str "failed to create HTTP request for " ++ method ++ str " "
            ++ (SumsubBaseURL ++ path))), [])
        | .ok built =>
          (match env.Do (signedRequest std env config built method path contentType body) with
            | .error err =>
              .error (wrap err (str "HTTP request failed for " ++ method ++ str " "
                ++ (SumsubBaseURL ++ path)))
            | .ok resp =>
              match resp.Body with
              | .error err => .error (wrap err (str "failed to read response body"))
              | .ok respBody =>
                if resp.StatusCode ≥ 400 then
                  .error (str "Sumsub API error: Status " ++ fmtInt resp.StatusCode
                    ++ str ", Body: " ++ respBody)
                else .ok respBody,
            [.send (signedRequest std env config built method path contentType body)]) := by
  simp only [makeSumsubRequest, signedRequest]
  cases std.newRequest method (SumsubBaseURL ++ path) with
  | error err => rfl
  | ok built =>
    simp only []
    split
    · rfl
    · split
      · rfl
      · split <;> rfl

theorem makeSumsubRequest_send (std : Std) (env : Env) (config : SumsubConfig)
    (method path contentType : GoString) (body : Option Bytes) (req : HttpRequest)
    (h : Event.send req ∈ (makeSumsubRequest std env config method path contentType body).2) :
    ∃ built, std.newRequest method (SumsubBaseURL ++ path) = .ok built
      ∧ req = signedRequest std env config built method path contentType body := by
  rw [makeSumsubRequest_eq] at h
  cases hnr : std.newRequest method (SumsubBaseURL ++ path) with
  | error err => simp [hnr] at h
  | ok built =>
    refine ⟨built, rfl, ?_⟩
    simpa [hnr] using h

theorem makeSumsubRequest_events (std : Std) (env : Env) (config : SumsubConfig)
    (method path contentType : GoString) (body : Option Bytes) :
    (makeSumsubRequest std env config method path contentType body).2 = []
      ∨ ∃ req, (makeSumsubRequest std env config method path contentType body).2
        = [.send req] := by
  rw [makeSumsubRequest_eq]
  cases std.newRequest method (SumsubBaseURL ++ path) with
  | error err => exact Or.inl rfl
  | ok built => exact Or.inr ⟨_, rfl⟩

theorem createApplicant_no_attach (std : Std) (env : Env) (config : SumsubConfig)
    (applicant : Applicant) (applicantID idDocType country : GoString) :
    Event.addDocumentFromReader applicantID idDocType country
      ∉ (createApplicant std env config applicant).2 := by
  simp only [createApplicant]
  cases std.marshalApplicant applicant with
  | error err => simp
  | ok body =>
    simp only []
    have hev := makeSumsubRequest_events std env config (str "POST")
      (str "/resources/applicants?levelName=" ++ config.LevelName) ContentTypeJSON (some body)
    rcases hmk : makeSumsubRequest std env config (str "POST")
      (str "/resources/applicants?levelName=" ++ config.LevelName) ContentTypeJSON (some body)
      with ⟨res, evs⟩
    rw [hmk] at hev
    simp only [] at hev
    cases res with
    | error err => rcases hev with rfl | ⟨req, rfl⟩ <;> simp
    | ok respBody =>
      simp only []
      split <;> rcases hev with rfl | ⟨req, rfl⟩ <;> simp

theorem addDocumentFromReader_entry (std : Std) (env : Env) (config : SumsubConfig)
    (applicantID idDocType country : GoString) (file : Reader) :
    Event.addDocumentFromReader applicantID idDocType country
      ∈ (addDocumentFromReader std env config applicantID idDocType country file).2 := by
  simp only [addDocumentFromReader]
  split
  · simp
  · split
    · simp
    · split
      · simp
      · split <;> simp

/-- The handler on a submission that passes its checks: the two provider calls. -/
theorem handleProcessEKYC_valid (std : Std) (config : SumsubConfig) (envCreate envAttach : Env)
    (r : Request) (form : ParsedForm) (file : Reader)
    (hm : r.Method = str "POST") (hf : r.ParseMultipartForm = .ok form)
    (h1 : form.FormValue (str "externalUserId") ≠ [])
    (h2 : form.FormValue (str "idDocType") ≠ [])
    (h3 : form.FormValue (str "country") ≠ [])
    (hfile : form.FormFile (str "content") = .ok file) :
    handleProcessEKYC std config envCreate envAttach r
      = match createApplicant std envCreate config
            (newApplicant (form.FormValue (str "externalUserId"))) with
        | (.error err, evs) =>
          (httpError (str "Failed to create applicant") 500,
            evs ++ [.log (str "Failed to create applicant: " ++ err)])
        | (.ok createdApplicant, evs) =>
          match addDocumentFromReader std envAttach config createdApplicant.ID
              (form.FormValue (str "idDocType")) (form.FormValue (str "country")) file with
          | (.error err, evs2) =>
            (httpError (str "Failed to add document") 500,
              (evs ++ [.log (str "Applicant created with ID: " ++ createdApplicant.ID
                ++ str " for user " ++ form.FormValue (str "externalUserId"))])
                ++ evs2 ++ [.log (str "Failed to add document: " ++ err)])
          | (.ok idDoc, evs2) =>
            ({ status := 200,
               body := str "EKYC process initiated for user "
                 ++ form.FormValue (str "externalUserId")
                 ++ str ". Check /verify for final status." },
              (evs ++ [.log (str "Applicant created with ID: " ++ createdApplicant.ID
                ++ str " for user " ++ form.FormValue (str "externalUserId"))])
                ++ evs2 ++ [.log (str "Document added for applicant "
                  ++ createdApplicant.ID ++ str ": " ++ std.fmtIdDoc idDoc)]) := by
  simp only [handleProcessEKYC, newApplicant, hm, hf, hfile]
  rw [if_neg (by simp), if_neg (by simp [h1, h2, h3])]

/-! ## C1: the digest check -/

/-- C1: the digest check accepts a digest that is not the hexadecimal HMAC-SHA256 of the
payload. For every library, `not-the-digest` differs from the recomputed digest of the body
`{}` under the key `secret`, yet `verifyPayloadDigest` returns true, the callback that carries
it under `HMAC_SHA256_HEX` is not answered 401, and its body reaches `processWebhookPayload`;
with `testStd` the answer is 200. -/
theorem verifyPayloadDigest_accepts_wrong_digest :
    (∀ std : Std,
      str "not-the-digest" ≠ hexEncodeToString (std.hmacSHA256 (str "secret") emptyObjectJSON)
      ∧ verifyPayloadDigest std emptyObjectJSON (str "not-the-digest") (str "secret") = true
      ∧ (handleSumsubWebhook std testConfig
          (callback (str "not-the-digest") (str "HMAC_SHA256_HEX") emptyObjectJSON)).1.status
          ≠ 401
      ∧ Event.processWebhookPayload emptyObjectJSON
          ∈ (handleSumsubWebhook std testConfig
              (callback (str "not-the-digest") (str "HMAC_SHA256_HEX") emptyObjectJSON)).2)
    ∧ handleSumsubWebhook testStd testConfig
        (callback (str "not-the-digest") (str "HMAC_SHA256_HEX") emptyObjectJSON)
      = ({ status := 200, body := [] },
          [.log (str "Webhook payload digest verified"),
           .processWebhookPayload emptyObjectJSON,
           .log (str "Received Sumsub webhook payload: map[]"),
           .log (str "Webhook payload missing applicantId")]) := by
  refine ⟨fun std => ?_, by decide⟩
  have hrun := handleSumsubWebhook_verified std testConfig
    (callback (str "not-the-digest") (str "HMAC_SHA256_HEX") emptyObjectJSON) emptyObjectJSON
    (by decide) (by decide) (by decide) (by decide) (by decide)
  refine ⟨?_, verifyPayloadDigest_eq_true _ _ _ _, ?_, ?_⟩
  · intro h
    have hmem : (UInt8.ofNat 110) ∈ hexEncodeToString
        (std.hmacSHA256 (str "secret") emptyObjectJSON) := by
      rw [← h]; decide
    exact absurd (hexEncodeToString_mem _ _ hmem) (by decide)
  · rw [hrun]
    cases hu : std.unmarshalMap emptyObjectJSON with
    | error err =>
      rw [processWebhookPayload_error std _ err hu]
      show (400 : Int) ≠ 401
      decide
    | ok m => rw [processWebhookPayload_ok std _ m hu]; decide
  · rw [hrun]
    exact List.mem_cons_of_mem _ (processWebhookPayload_entry std _)

/-! ## C2: callbacks without a usable digest are refused -/

/-- C2: a POST callback whose body is readable and whose `X-Payload-Digest` header is empty,
or whose `X-Payload-Digest-Alg` header is not exactly `HMAC_SHA256_HEX`, or for which the
configured secret key is empty, is answered 401 Unauthorized, and `processWebhookPayload` is
not invoked on any body. -/
theorem handleSumsubWebhook_fail_closed (std : Std) (config : SumsubConfig) (r : Request)
    (bodyBytes : Bytes) (hm : r.Method = str "POST") (hb : r.Body = .ok bodyBytes)
    (h : r.Header.Get (str "X-Payload-Digest") = []
      ∨ r.Header.Get (str "X-Payload-Digest-Alg") ≠ str "HMAC_SHA256_HEX"
      ∨ config.SecretKey = []) :
    (handleSumsubWebhook std config r).1 = httpError (str "Unauthorized") 401
      ∧ ∀ b, Event.processWebhookPayload b ∉ (handleSumsubWebhook std config r).2 := by
  rw [handleSumsubWebhook_unverified std config r bodyBytes hm hb h]
  exact ⟨rfl, fun b hmem => by simp at hmem⟩

/-- C2 at a callback that names the algorithm `HMAC_SHA512_HEX`. -/
theorem handleSumsubWebhook_fail_closed_witness :
    (callback (str "0f") (str "HMAC_SHA512_HEX") greenCallbackJSON).Method = str "POST"
      ∧ (callback (str "0f") (str "HMAC_SHA512_HEX") greenCallbackJSON).Body
        = .ok greenCallbackJSON
      ∧ (callback (str "0f") (str "HMAC_SHA512_HEX") greenCallbackJSON).Header.Get
          (str "X-Payload-Digest-Alg") ≠ str "HMAC_SHA256_HEX"
      ∧ (handleSumsubWebhook testStd testConfig
          (callback (str "0f") (str "HMAC_SHA512_HEX") greenCallbackJSON)).1
        = httpError (str "Unauthorized") 401
      ∧ ∀ b, Event.processWebhookPayload b
          ∉ (handleSumsubWebhook testStd testConfig
              (callback (str "0f") (str "HMAC_SHA512_HEX") greenCallbackJSON)).2 :=
  ⟨by decide, rfl, by decide,
    handleSumsubWebhook_fail_closed testStd testConfig
      (callback (str "0f") (str "HMAC_SHA512_HEX") greenCallbackJSON) greenCallbackJSON
      (by decide) rfl (Or.inr (Or.inl (by decide)))⟩

/-! ## C3: the request signature -/

set_option maxRecDepth 100000 in
/-- C3: `signRequest` is the lowercase hexadecimal encoding (`lowerHex`, two digits per byte,
high four bits first, digits `0` to `9` and `a` to `f`) of the HMAC-SHA256, keyed by the
secret, of timestamp, method, path and body in this order; a nil body adds nothing to the
message. With SHA-256 and HMAC computed, the signature of the timestamp `1700000000`, the
secret `secret`, `GET` and `/resources/applicants/A1/one` without body, and of a POST with a
body, are the digests any HMAC-SHA256 tool gives. -/
theorem signRequest_spec :
    (∀ (std : Std) (timestamp secret method path : GoString) (body : Option Bytes),
      signRequest std timestamp secret method path body
          = lowerHex (std.hmacSHA256 secret (timestamp ++ method ++ path ++ body.getD []))
        ∧ signRequest std timestamp secret method path none
          = lowerHex (std.hmacSHA256 secret (timestamp ++ method ++ path))
        ∧ (signRequest std timestamp secret method path body).length
          = 2 * (std.hmacSHA256 secret (timestamp ++ method ++ path ++ body.getD [])).length
        ∧ (signRequest std timestamp secret method path body).all
            (fun c => decide (c ∈ str "0123456789abcdef")) = true)
      ∧ lowerHex [0x00, 0x09, 0x0a, 0x1f, 0xa5, 0xf0, 0xff] = str "00090a1fa5f0ff"
      ∧ signRequest testStd (str "1700000000") (str "secret") (str "GET")
          (str "/resources/applicants/A1/one") none
        = str "e06252f1dde97da6f1ccf2429deb682f9b8d8de945e29e39ef028ad6629cc670"
      ∧ signRequest testStd (str "1700000000") (str "secret") (str "POST")
          (str "/resources/applicants?levelName=basic-kyc-level")
          (some (str "\x7b\"externalUserId\":\"user-1\"\x7d"))
        = str "41fd9674c8337f3704457f404d51e21b8ccbc1b6f446da31795074515537aec5" := by
  refine ⟨fun std timestamp secret method path body => ?_, by decide, by decide, by decide⟩
  have h : signRequest std timestamp secret method path body
      = hexEncodeToString (std.hmacSHA256 secret (timestamp ++ method ++ path ++ body.getD [])) := by
    cases body <;> simp [signRequest]
  refine ⟨by rw [h, hexEncodeToString_eq_lowerHex],
    by simp [signRequest, hexEncodeToString_eq_lowerHex], ?_, ?_⟩
  · rw [h, hexEncodeToString_length]
  · rw [h, List.all_eq_true]
    intro c hc
    exact decide_eq_true (hexEncodeToString_mem _ c hc)

/-! ## C6: provider errors -/

/-- C6: when the request was sent and the response and its body were read, `makeSumsubRequest`
fails exactly when the status code is at least 400; the error then reads
`Sumsub API error: Status <code>, Body: <body>` with the whole body, and no bytes are
returned; below 400 the bytes returned are the response body. -/
theorem makeSumsubRequest_fails_iff_status (std : Std) (env : Env) (config : SumsubConfig)
    (method path contentType : GoString) (body : Option Bytes)
    (req : HttpRequest) (resp : HttpResponse) (respBody : Bytes)
    (hsend : Event.send req
      ∈ (makeSumsubRequest std env config method path contentType body).2)
    (hdo : env.Do req = .ok resp) (hread : resp.Body = .ok respBody) :
    ((∃ err, (makeSumsubRequest std env config method path contentType body).1 = .error err)
        ↔ resp.StatusCode ≥ 400)
      ∧ (resp.StatusCode ≥ 400 →
          (makeSumsubRequest std env config method path contentType body).1
            = .error (str "Sumsub API error: Status " ++ fmtInt resp.StatusCode
                ++ str ", Body: " ++ respBody))
      ∧ (resp.StatusCode < 400 →
          (makeSumsubRequest std env config method path contentType body).1
            = .ok respBody) := by
  obtain ⟨built, hnr, hreq⟩ :=
    makeSumsubRequest_send std env config method path contentType body req hsend
  subst hreq
  rw [makeSumsubRequest_eq]
  simp only [hnr, hdo, hread]
  by_cases hst : resp.StatusCode ≥ 400
  · simp [hst]
  · have hlt : resp.StatusCode < 400 := by omega
    simp [hst, hlt]

set_option maxRecDepth 100000 in
/-- C6 at a provider that answers 404 with the body `not found`. -/
theorem makeSumsubRequest_fails_iff_status_witness :
    Event.send (signedRequest testStd (provider 404 (str "not found")) testConfig
          (str "GET", str "https://api.sumsub.com/resources/applicants/A1/one") (str "GET")
        (str "/resources/applicants/A1/one") ContentTypeJSON none)
      ∈ (makeSumsubRequest testStd (provider 404 (str "not found")) testConfig (str "GET")
          (str "/resources/applicants/A1/one") ContentTypeJSON none).2
    ∧ (provider 404 (str "not found")).Do
        (signedRequest testStd (provider 404 (str "not found")) testConfig
          (str "GET", str "https://api.sumsub.com/resources/applicants/A1/one") (str "GET")
          (str "/resources/applicants/A1/one") ContentTypeJSON none)
      = .ok { StatusCode := 404, Body := .ok (str "not found") }
    ∧ (((∃ err, (makeSumsubRequest testStd (provider 404 (str "not found")) testConfig
          (str "GET") (str "/resources/applicants/A1/one") ContentTypeJSON none).1
          = .error err) ↔ (404 : Int) ≥ 400)
      ∧ ((404 : Int) ≥ 400 →
          (makeSumsubRequest testStd (provider 404 (str "not found")) testConfig (str "GET")
            (str "/resources/applicants/A1/one") ContentTypeJSON none).1
            = .error (str "Sumsub API error: Status " ++ fmtInt 404
                ++ str ", Body: " ++ str "not found"))
      ∧ ((404 : Int) < 400 →
          (makeSumsubRequest testStd (provider 404 (str "not found")) testConfig (str "GET")
            (str "/resources/applicants/A1/one") ContentTypeJSON none).1
            = .ok (str "not found"))) :=
  ⟨by decide, rfl,
    makeSumsubRequest_fails_iff_status testStd (provider 404 (str "not found")) testConfig
      (str "GET") (str "/resources/applicants/A1/one") ContentTypeJSON none
      (signedRequest testStd (provider 404 (str "not found")) testConfig
          (str "GET", str "https://api.sumsub.com/resources/applicants/A1/one") (str "GET")
        (str "/resources/applicants/A1/one") ContentTypeJSON none)
      { StatusCode := 404, Body := .ok (str "not found") } (str "not found")
      (by decide) rfl rfl⟩

/-! ## C7: what a verified callback is answered -/

/-- C7, as the code has it: `processWebhookPayload` answers 400 exactly when `json.Unmarshal`
of the body into the map returns an error, and 200 with an empty body whenever it returns
none, whatever the fields are; when `applicantId` is absent or not a string the call only
logs that and acknowledges. -/
theorem processWebhookPayload_status (std : Std) (bodyBytes : Bytes) :
    ((processWebhookPayload std bodyBytes).1.status = 400
        ↔ ∃ err, std.unmarshalMap bodyBytes = .error err)
      ∧ (processWebhookPayload std bodyBytes).1
        = (match std.unmarshalMap bodyBytes with
          | .error _ => httpError (str "Invalid webhook payload") 400
          | .ok _ => { status := 200, body := [] })
      ∧ (∀ m, std.unmarshalMap bodyBytes = .ok m →
          (∀ s, m.lookup (str "applicantId") ≠ some (.string s)) →
          processWebhookPayload std bodyBytes
            = ({ status := 200, body := [] },
                [.processWebhookPayload bodyBytes,
                 .log (str "Received Sumsub webhook payload: " ++ std.fmtMap m),
                 .log (str "Webhook payload missing applicantId")])) := by
  cases hu : std.unmarshalMap bodyBytes with
  | error err =>
    rw [processWebhookPayload_error std _ err hu]
    exact ⟨⟨fun _ => ⟨err, rfl⟩, fun _ => rfl⟩, rfl, fun m hm => by cases hm⟩
  | ok m =>
    rw [processWebhookPayload_ok std _ m hu]
    refine ⟨⟨fun h => absurd h (by decide), fun ⟨err, h⟩ => by cases h⟩, rfl, ?_⟩
    intro m1 hm1 hno
    cases hm1
    simp only [processWebhookPayload, hu]
    rfl

/-- C7 as stated fails: the body `null` is not a JSON object, `json.Unmarshal` into the map
accepts it and leaves the map nil, and the call answers 200, not 400. -/
theorem processWebhookPayload_null_acknowledged :
    isObjectText nullJSON = false
      ∧ testStd.unmarshalMap nullJSON = .ok []
      ∧ processWebhookPayload testStd nullJSON
        = ({ status := 200, body := [] },
            [.processWebhookPayload nullJSON,
             .log (str "Received Sumsub webhook payload: map[]"),
             .log (str "Webhook payload missing applicantId")])
      ∧ (processWebhookPayload testStd nullJSON).1.status ≠ 400 := by
  refine ⟨by decide, rfl, by decide, by decide⟩

/-! ## C9: review answers are logged, not stored -/

set_option maxRecDepth 100000 in
/-- C9: the verified callback of scenario C does not make any review record change. For every
library, a callback that passes the digest gate and whose body decodes to a map with a string
`applicantId` and an object `reviewResult` holding a string `reviewAnswer` has, as its whole
run, the reply 200 and four events: the three log lines and the entry into
`processWebhookPayload`. At the body
`{"applicantId":"X","reviewResult":{"reviewAnswer":"GREEN"}}` with its HMAC-SHA256 digest the
last line is `Applicant X review status: GREEN`; nothing is written, sent or stored. -/
theorem handleSumsubWebhook_green_only_logged :
    (∀ (std : Std) (config : SumsubConfig) (r : Request) (bodyBytes : Bytes)
        (m reviewResult : JsonMap) (applicantID reviewAnswer : GoString),
        r.Method = str "POST" → r.Body = .ok bodyBytes →
        r.Header.Get (str "X-Payload-Digest") ≠ [] →
        r.Header.Get (str "X-Payload-Digest-Alg") = str "HMAC_SHA256_HEX" →
        config.SecretKey ≠ [] →
        std.unmarshalMap bodyBytes = .ok m →
        m.lookup (str "applicantId") = some (.string applicantID) →
        m.lookup (str "reviewResult") = some (.object reviewResult) →
        reviewResult.lookup (str "reviewAnswer") = some (.string reviewAnswer) →
        handleSumsubWebhook std config r
          = ({ status := 200, body := [] },
              [.log (str "Webhook payload digest verified"),
               .processWebhookPayload bodyBytes,
               .log (str "Received Sumsub webhook payload: " ++ std.fmtMap m),
               .log (str "Applicant " ++ applicantID ++ str " review status: "
                 ++ reviewAnswer)]))
      ∧ greenCallback.Header.Get (str "X-Payload-Digest")
        = hexEncodeToString (testStd.hmacSHA256 testConfig.SecretKey greenCallbackJSON)
      ∧ handleSumsubWebhook testStd testConfig greenCallback
        = ({ status := 200, body := [] },
            [.log (str "Webhook payload digest verified"),
             .processWebhookPayload greenCallbackJSON,
             .log (str ("Received Sumsub webhook payload: "
               ++ "map[applicantId:X reviewResult:map[reviewAnswer:GREEN]]")),
             .log (str "Applicant X review status: GREEN")]) := by
  refine ⟨?_, by decide, by decide⟩
  intro std config r bodyBytes m reviewResult applicantID reviewAnswer hm hb hd ha hs hu hid
    hrr hra
  rw [handleSumsubWebhook_verified std config r bodyBytes hm hb hd ha hs]
  simp [processWebhookPayload, hu, hid, hrr, hra]

/-! ## C10: the signed request -/

/-- C10, as the code has it: the request `makeSumsubRequest` sends carries the body it was
given; its `X-App-Access-Ts` header is the decimal time that was signed, its
`X-App-Access-Sig` header is `signRequest` of that time, the secret key and the `method`,
`path` and `body` arguments, that is the lowercase hexadecimal HMAC-SHA256 of their
concatenation, and its `X-App-Token` header is the app token. Its method and URL are the ones
`http.NewRequest` built from `method` and `SumsubBaseURL ++ path`: they are `method` and
`SumsubBaseURL ++ path` whenever `http.NewRequest` keeps these as given. -/
theorem makeSumsubRequest_self_consistent (std : Std) (env : Env) (config : SumsubConfig)
    (method path contentType : GoString) (body : Option Bytes) (req : HttpRequest)
    (hsend : Event.send req
      ∈ (makeSumsubRequest std env config method path contentType body).2) :
    req.Body = body.getD []
      ∧ req.Header.Get (str "X-App-Access-Ts") = fmtInt env.now
      ∧ req.Header.Get (str "X-App-Access-Sig")
        = signRequest std (fmtInt env.now) config.SecretKey method path body
      ∧ req.Header.Get (str "X-App-Access-Sig")
        = lowerHex (std.hmacSHA256 config.SecretKey
            (fmtInt env.now ++ method ++ path ++ body.getD []))
      ∧ req.Header.Get (str "X-App-Token") = config.AppToken
      ∧ std.newRequest method (SumsubBaseURL ++ path) = .ok (req.Method, req.URL)
      ∧ (std.newRequest method (SumsubBaseURL ++ path) = .ok (method, SumsubBaseURL ++ path) →
          req.Method = method ∧ req.URL = SumsubBaseURL ++ path) := by
  obtain ⟨built, hnr, hreq⟩ :=
    makeSumsubRequest_send std env config method path contentType body req hsend
  subst hreq
  have hh := signedRequest_headers std env config built method path contentType body
  have hsig : signRequest std (fmtInt env.now) config.SecretKey method path body
      = lowerHex (std.hmacSHA256 config.SecretKey
          (fmtInt env.now ++ method ++ path ++ body.getD [])) := by
    rw [← hexEncodeToString_eq_lowerHex]
    cases body <;> simp [signRequest]
  refine ⟨rfl, hh.1, hh.2.1, hh.2.1.trans hsig, hh.2.2.1, hnr, ?_⟩
  intro hkeep
  rw [hkeep] at hnr
  cases hnr
  exact ⟨rfl, rfl⟩

set_option maxRecDepth 100000 in
/-- C10 at the creation request for `user-1`, whose method and URL `http.NewRequest` keeps. -/
theorem makeSumsubRequest_self_consistent_witness :
    Event.send (signedRequest testStd (provider 200 createdA1JSON) testConfig
        (str "POST", str "https://api.sumsub.com/resources/applicants?levelName=basic-kyc-level")
        (str "POST") (str "/resources/applicants?levelName=basic-kyc-level") ContentTypeJSON
        (some (str "\x7b\"externalUserId\":\"user-1\"\x7d")))
      ∈ (makeSumsubRequest testStd (provider 200 createdA1JSON) testConfig (str "POST")
          (str "/resources/applicants?levelName=basic-kyc-level") ContentTypeJSON
          (some (str "\x7b\"externalUserId\":\"user-1\"\x7d"))).2
    ∧ testStd.newRequest (str "POST")
        (SumsubBaseURL ++ str "/resources/applicants?levelName=basic-kyc-level")
      = .ok (str "POST", SumsubBaseURL ++ str "/resources/applicants?levelName=basic-kyc-level")
    ∧ (signedRequest testStd (provider 200 createdA1JSON) testConfig
        (str "POST", str "https://api.sumsub.com/resources/applicants?levelName=basic-kyc-level")
        (str "POST") (str "/resources/applicants?levelName=basic-kyc-level") ContentTypeJSON
        (some (str "\x7b\"externalUserId\":\"user-1\"\x7d"))).Header.Get (str "X-App-Access-Ts")
      = str "1700000000"
    ∧ (signedRequest testStd (provider 200 createdA1JSON) testConfig
        (str "POST", str "https://api.sumsub.com/resources/applicants?levelName=basic-kyc-level")
        (str "POST") (str "/resources/applicants?levelName=basic-kyc-level") ContentTypeJSON
        (some (str "\x7b\"externalUserId\":\"user-1\"\x7d"))).Header.Get (str "X-App-Access-Sig")
      = str "41fd9674c8337f3704457f404d51e21b8ccbc1b6f446da31795074515537aec5"
    ∧ (signedRequest testStd (provider 200 createdA1JSON) testConfig
        (str "POST", str "https://api.sumsub.com/resources/applicants?levelName=basic-kyc-level")
        (str "POST") (str "/resources/applicants?levelName=basic-kyc-level") ContentTypeJSON
        (some (str "\x7b\"externalUserId\":\"user-1\"\x7d"))).Header.Get (str "X-App-Token")
      = str "app-token"
    ∧ (signedRequest testStd (provider 200 createdA1JSON) testConfig
        (str "POST", str "https://api.sumsub.com/resources/applicants?levelName=basic-kyc-level")
        (str "POST") (str "/resources/applicants?levelName=basic-kyc-level") ContentTypeJSON
        (some (str "\x7b\"externalUserId\":\"user-1\"\x7d"))).Method = str "POST"
    ∧ (signedRequest testStd (provider 200 createdA1JSON) testConfig
        (str "POST", str "https://api.sumsub.com/resources/applicants?levelName=basic-kyc-level")
        (str "POST") (str "/resources/applicants?levelName=basic-kyc-level") ContentTypeJSON
        (some (str "\x7b\"externalUserId\":\"user-1\"\x7d"))).URL
      = SumsubBaseURL ++ str "/resources/applicants?levelName=basic-kyc-level" :=
  have h := makeSumsubRequest_self_consistent testStd (provider 200 createdA1JSON) testConfig
    (str "POST") (str "/resources/applicants?levelName=basic-kyc-level") ContentTypeJSON
    (some (str "\x7b\"externalUserId\":\"user-1\"\x7d"))
    (signedRequest testStd (provider 200 createdA1JSON) testConfig
      (str "POST", str "https://api.sumsub.com/resources/applicants?levelName=basic-kyc-level")
      (str "POST") (str "/resources/applicants?levelName=basic-kyc-level") ContentTypeJSON
      (some (str "\x7b\"externalUserId\":\"user-1\"\x7d"))) (by decide)
  ⟨by decide, by decide, h.2.1, h.2.2.1.symm.trans (by decide), h.2.2.2.2.1,
    (h.2.2.2.2.2.2 (by decide)).1, (h.2.2.2.2.2.2 (by decide)).2⟩

set_option maxRecDepth 100000 in
/-- C10 as stated fails: called with the empty method and the path `/a b`, the request sent
has the method `GET` and the URL `https://api.sumsub.com/a%20b`, while its signature is over
the empty method and the path `/a b`. -/
theorem makeSumsubRequest_sends_other_than_signed :
    (makeSumsubRequest testStd (provider 200 emptyObjectJSON) testConfig [] (str "/a b")
        ContentTypeJSON none).2
      = [.send (signedRequest testStd (provider 200 emptyObjectJSON) testConfig
          (str "GET", str "https://api.sumsub.com/a%20b") [] (str "/a b") ContentTypeJSON none)]
    ∧ (signedRequest testStd (provider 200 emptyObjectJSON) testConfig
        (str "GET", str "https://api.sumsub.com/a%20b") [] (str "/a b") ContentTypeJSON
        none).Method = str "GET"
    ∧ str "GET" ≠ ([] : GoString)
    ∧ (signedRequest testStd (provider 200 emptyObjectJSON) testConfig
        (str "GET", str "https://api.sumsub.com/a%20b") [] (str "/a b") ContentTypeJSON
        none).URL = str "https://api.sumsub.com/a%20b"
    ∧ str "https://api.sumsub.com/a%20b" ≠ SumsubBaseURL ++ str "/a b"
    ∧ (signedRequest testStd (provider 200 emptyObjectJSON) testConfig
        (str "GET", str "https://api.sumsub.com/a%20b") [] (str "/a b") ContentTypeJSON
        none).Header.Get (str "X-App-Access-Sig")
      = signRequest testStd (str "1700000000") (str "secret") [] (str "/a b") none
    ∧ signRequest testStd (str "1700000000") (str "secret") [] (str "/a b") none
      ≠ signRequest testStd (str "1700000000") (str "secret") (str "GET") (str "/a%20b")
          none := by
  decide

/-! ## C5: a submission that lacks a field -/

/-- C5: a POST submission whose multipart form parses and in which `externalUserId`,
`idDocType` or `country` is empty is answered 400, and the handler causes no event: neither
`createApplicant` nor `addDocumentFromReader` is entered and no request is sent. -/
theorem handleProcessEKYC_missing_field (std : Std) (config : SumsubConfig)
    (envCreate envAttach : Env) (r : Request) (form : ParsedForm)
    (hm : r.Method = str "POST") (hf : r.ParseMultipartForm = .ok form)
    (h : form.FormValue (str "externalUserId") = [] ∨ form.FormValue (str "idDocType") = []
      ∨ form.FormValue (str "country") = []) :
    (handleProcessEKYC std config envCreate envAttach r).1
        = httpError (str "Missing required parameters") 400
      ∧ (handleProcessEKYC std config envCreate envAttach r).2 = [] := by
  simp only [handleProcessEKYC, hm, hf]
  rw [if_neg (by simp), if_pos h]
  exact ⟨rfl, rfl⟩

/-- C5 at a submission without `country`. -/
theorem handleProcessEKYC_missing_field_witness :
    (submission formWithoutCountry).Method = str "POST"
      ∧ (submission formWithoutCountry).ParseMultipartForm
        = .ok (parsedForm formWithoutCountry)
      ∧ (parsedForm formWithoutCountry).FormValue (str "country") = []
      ∧ (handleProcessEKYC testStd testConfig (provider 200 createdA1JSON)
          (provider 200 emptyObjectJSON) (submission formWithoutCountry)).1
        = httpError (str "Missing required parameters") 400
      ∧ (handleProcessEKYC testStd testConfig (provider 200 createdA1JSON)
          (provider 200 emptyObjectJSON) (submission formWithoutCountry)).2 = [] :=
  ⟨by decide, rfl, by decide,
    handleProcessEKYC_missing_field testStd testConfig (provider 200 createdA1JSON)
      (provider 200 emptyObjectJSON) (submission formWithoutCountry)
      (parsedForm formWithoutCountry) (by decide) rfl (Or.inr (Or.inr (by decide)))⟩

/-! ## C4: attachment without a provider id -/

set_option maxRecDepth 100000 in
/-- C4: the handler attaches a document to an applicant without an id. On every submission
that passes the checks, once `createApplicant` returns an applicant without error,
`addDocumentFromReader` is entered with that applicant's `ID`, empty or not. When the
provider answers the creation request with status 200 and the body `{}`, `createApplicant`
returns the zero `Applicant`, whose `ID` is empty, and `addDocumentFromReader` is entered
with the empty id and sends its request to `.../resources/applicants//info/idDoc`. -/
theorem handleProcessEKYC_attaches_without_id :
    (∀ (std : Std) (config : SumsubConfig) (envCreate envAttach : Env) (r : Request)
        (form : ParsedForm) (file : Reader) (created : Applicant),
        r.Method = str "POST" → r.ParseMultipartForm = .ok form →
        form.FormValue (str "externalUserId") ≠ [] →
        form.FormValue (str "idDocType") ≠ [] →
        form.FormValue (str "country") ≠ [] →
        form.FormFile (str "content") = .ok file →
        (createApplicant std envCreate config
          (newApplicant (form.FormValue (str "externalUserId")))).1 = .ok created →
        Event.addDocumentFromReader created.ID (form.FormValue (str "idDocType"))
            (form.FormValue (str "country"))
          ∈ (handleProcessEKYC std config envCreate envAttach r).2)
      ∧ (createApplicant testStd (provider 200 emptyObjectJSON) testConfig
          (newApplicant (str "user-1"))).1 = .ok {}
      ∧ ({} : Applicant).ID = []
      ∧ Event.addDocumentFromReader [] (str "PASSPORT") (str "VNM")
        ∈ (handleProcessEKYC testStd testConfig (provider 200 emptyObjectJSON)
            (provider 404 (str "not found")) (submission fullForm)).2
      ∧ sentURLs (handleProcessEKYC testStd testConfig (provider 200 emptyObjectJSON)
            (provider 404 (str "not found")) (submission fullForm)).2
        = [str "https://api.sumsub.com/resources/applicants?levelName=basic-kyc-level",
           str "https://api.sumsub.com/resources/applicants//info/idDoc"]
      ∧ (handleProcessEKYC testStd testConfig (provider 200 emptyObjectJSON)
            (provider 404 (str "not found")) (submission fullForm)).1
        = httpError (str "Failed to add document") 500 := by
  refine ⟨?_, by decide, rfl, by decide, by decide, by decide⟩
  intro std config envCreate envAttach r form file created hm hf h1 h2 h3 hfile hok
  rw [handleProcessEKYC_valid std config envCreate envAttach r form file hm hf h1 h2 h3 hfile]
  rcases hc : createApplicant std envCreate config
    (newApplicant (form.FormValue (str "externalUserId"))) with ⟨res, evs⟩
  rw [hc] at hok
  simp only [] at hok
  subst hok
  simp only []
  have hentry := addDocumentFromReader_entry std envAttach config created.ID
    (form.FormValue (str "idDocType")) (form.FormValue (str "country")) file
  rcases ha : addDocumentFromReader std envAttach config created.ID
    (form.FormValue (str "idDocType")) (form.FormValue (str "country")) file with ⟨res2, evs2⟩
  rw [ha] at hentry
  cases res2 <;> simp [hentry]

/-! ## C8: the two failure replies -/

/-- C8, as the code has it: on a submission that passes the checks, when `createApplicant`
fails the reply is 500 `Failed to create applicant` and `addDocumentFromReader` is not
entered; when `createApplicant` succeeds and `addDocumentFromReader` fails the reply is 500
`Failed to add document`, which differs from the former, and the id returned by creation is
in the log line `Applicant created with ID: <id> for user <externalUserId>` of the run. -/
theorem handleProcessEKYC_failure_replies (std : Std) (config : SumsubConfig)
    (envCreate envAttach : Env) (r : Request) (form : ParsedForm) (file : Reader)
    (hm : r.Method = str "POST") (hf : r.ParseMultipartForm = .ok form)
    (h1 : form.FormValue (str "externalUserId") ≠ [])
    (h2 : form.FormValue (str "idDocType") ≠ [])
    (h3 : form.FormValue (str "country") ≠ [])
    (hfile : form.FormFile (str "content") = .ok file) :
    (∀ err, (createApplicant std envCreate config
          (newApplicant (form.FormValue (str "externalUserId")))).1 = .error err →
        (handleProcessEKYC std config envCreate envAttach r).1
            = httpError (str "Failed to create applicant") 500
          ∧ ∀ applicantID idDocType country,
              Event.addDocumentFromReader applicantID idDocType country
                ∉ (handleProcessEKYC std config envCreate envAttach r).2)
      ∧ (∀ created err, (createApplicant std envCreate config
            (newApplicant (form.FormValue (str "externalUserId")))).1 = .ok created →
          (addDocumentFromReader std envAttach config created.ID
            (form.FormValue (str "idDocType")) (form.FormValue (str "country")) file).1
            = .error err →
          (handleProcessEKYC std config envCreate envAttach r).1
              = httpError (str "Failed to add document") 500
            ∧ httpError (str "Failed to add document") 500
              ≠ httpError (str "Failed to create applicant") 500
            ∧ Event.log (str "Applicant created with ID: " ++ created.ID ++ str " for user "
                ++ form.FormValue (str "externalUserId"))
              ∈ (handleProcessEKYC std config envCreate envAttach r).2) := by
  rw [handleProcessEKYC_valid std config envCreate envAttach r form file hm hf h1 h2 h3 hfile]
  have hno := createApplicant_no_attach std envCreate config
    (newApplicant (form.FormValue (str "externalUserId")))
  rcases hc : createApplicant std envCreate config
    (newApplicant (form.FormValue (str "externalUserId"))) with ⟨res, evs⟩
  rw [hc] at hno
  constructor
  · intro err herr
    simp only [] at herr
    subst herr
    refine ⟨rfl, fun applicantID idDocType country hmem => ?_⟩
    simp only [List.mem_append, List.mem_singleton] at hmem
    rcases hmem with hmem | hmem
    · exact hno applicantID idDocType country hmem
    · cases hmem
  · intro created err hok hfail
    simp only [] at hok
    subst hok
    simp only []
    rcases ha : addDocumentFromReader std envAttach config created.ID
      (form.FormValue (str "idDocType")) (form.FormValue (str "country")) file with ⟨res2, evs2⟩
    rw [ha] at hfail
    simp only [] at hfail
    subst hfail
    refine ⟨rfl, by decide, ?_⟩
    simp

set_option maxRecDepth 100000 in
/-- C8 at a provider that creates applicant `A1` and answers the attachment with 500, and at
a provider that answers the creation with 500. -/
theorem handleProcessEKYC_failure_replies_witness :
    (submission fullForm).Method = str "POST"
      ∧ (submission fullForm).ParseMultipartForm = .ok (parsedForm fullForm)
      ∧ (parsedForm fullForm).FormValue (str "externalUserId") = str "user-1"
      ∧ (parsedForm fullForm).FormValue (str "idDocType") = str "PASSPORT"
      ∧ (parsedForm fullForm).FormValue (str "country") = str "VNM"
      ∧ (parsedForm fullForm).FormFile (str "content") = .ok (.ok (str "document bytes"))
      ∧ ((createApplicant testStd (provider 200 createdA1JSON) testConfig
            (newApplicant (str "user-1"))).1 = .ok { ID := str "A1" }
        ∧ (addDocumentFromReader testStd (provider 500 (str "internal error")) testConfig
            (str "A1") (str "PASSPORT") (str "VNM") (.ok (str "document bytes"))).1
          = .error (wrap (str "Sumsub API error: Status 500, Body: internal error")
              (str "failed to make add document request"))
        ∧ (handleProcessEKYC testStd testConfig (provider 200 createdA1JSON)
            (provider 500 (str "internal error")) (submission fullForm)).1
          = httpError (str "Failed to add document") 500
        ∧ httpError (str "Failed to add document") 500
          ≠ httpError (str "Failed to create applicant") 500
        ∧ Event.log (str "Applicant created with ID: " ++ str "A1" ++ str " for user "
            ++ str "user-1")
          ∈ (handleProcessEKYC testStd testConfig (provider 200 createdA1JSON)
              (provider 500 (str "internal error")) (submission fullForm)).2)
      ∧ ((createApplicant testStd (provider 500 (str "internal error")) testConfig
            (newApplicant (str "user-1"))).1
          = .error (wrap (str "Sumsub API error: Status 500, Body: internal error")
              (str "failed to make create applicant request"))
        ∧ (handleProcessEKYC testStd testConfig (provider 500 (str "internal error"))
            (provider 200 emptyObjectJSON) (submission fullForm)).1
          = httpError (str "Failed to create applicant") 500
        ∧ ∀ applicantID idDocType country,
            Event.addDocumentFromReader applicantID idDocType country
              ∉ (handleProcessEKYC testStd testConfig (provider 500 (str "internal error"))
                  (provider 200 emptyObjectJSON) (submission fullForm)).2) :=
  ⟨by decide, rfl, by decide, by decide, by decide, by decide,
    ⟨by decide, by decide,
      (handleProcessEKYC_failure_replies testStd testConfig (provider 200 createdA1JSON)
        (provider 500 (str "internal error")) (submission fullForm)
        (parsedForm fullForm)
        (.ok (str "document bytes")) (by decide) rfl (by decide) (by decide) (by decide)
        rfl).2 { ID := str "A1" }
        (wrap (str "Sumsub API error: Status 500, Body: internal error")
          (str "failed to make add document request")) (by decide) (by decide)⟩,
    ⟨by decide,
      (handleProcessEKYC_failure_replies testStd testConfig (provider 500 (str "internal error"))
        (provider 200 emptyObjectJSON) (submission fullForm)
        (parsedForm fullForm)
        (.ok (str "document bytes")) (by decide) rfl (by decide) (by decide) (by decide)
        rfl).1
        (wrap (str "Sumsub API error: Status 500, Body: internal error")
          (str "failed to make create applicant request")) (by decide)⟩⟩

set_option maxRecDepth 100000 in
/-- C8 as stated fails: creation returns the id `A1` in one run and `B2` in another, the
attachment fails in both, and the two replies are the same 500 `Failed to add document`: the
reply does not carry the id. -/
theorem handleProcessEKYC_reply_without_id :
    (createApplicant testStd (provider 200 createdA1JSON) testConfig
        (newApplicant (str "user-1"))).1 = .ok { ID := str "A1" }
      ∧ (createApplicant testStd (provider 200 createdB2JSON) testConfig
        (newApplicant (str "user-1"))).1 = .ok { ID := str "B2" }
      ∧ (handleProcessEKYC testStd testConfig (provider 200 createdA1JSON)
          (provider 500 (str "internal error")) (submission fullForm)).1
        = { status := 500, body := str "Failed to add document\n" }
      ∧ (handleProcessEKYC testStd testConfig (provider 200 createdB2JSON)
          (provider 500 (str "internal error")) (submission fullForm)).1
        = { status := 500, body := str "Failed to add document\n" } := by
  decide

end Sumsub
